import Mathlib

/-!
Shallow embedding of the `commitvalidator` webhook receiver.

The repository has two Go variants of the same program:
`src/main.go` (namespace `MainGo` here) and `src/unnamed/part_000`
(namespace `Part000` here).  Both define the same data model
(`PRFile`, the inbound pull-request event) and the same handler
skeleton; they differ in the accepted action set, in the default
return value of `validatePR`, and in an extra reporting block in the
`part_000` variant.

Outbound HTTP effects (GitHub API calls) are modelled as an oracle
structure `Api` of result-returning functions together with an
explicit trace of `Call`s emitted by the handler.  JSON decoding of
the inbound payload (`json.Unmarshal`) is modelled as an arbitrary
function `unmarshal : String → Option PullRequestEvent`: both payload
paths of the Go code feed their bytes to the very same decoder, which
is all the claims about decoding need.
-/

/-- `PRFile` mirrors the Go struct `PRFile` (identical in both variants):
filename, additions, deletions, changes, status, raw_url, blob_url, patch. -/
structure PRFile where
  filename : String
  additions : Int
  deletions : Int
  changes : Int
  status : String
  rawUrl : String
  blobUrl : String
  patch : String
deriving DecidableEq, Repr

/-- The fields of the anonymous inbound-event struct parsed in
`prWebhookHandler` (both variants, lines 34–46): `action`, top-level
`number`, `pull_request.number`, `repository.name`,
`repository.owner.login`. -/
structure PullRequestEvent where
  action : String
  number : Int
  pullRequestNumber : Int
  repositoryName : String
  ownerLogin : String
deriving DecidableEq, Repr

namespace MainGo

/-- `validatePR` of `src/main.go` (lines 117–126): loops over the files,
returns `false` on a file named `forbidden.txt`, and returns `false`
after the loop as well. -/
def validatePR : List PRFile → Bool
  | [] => false
  | f :: fs => if f.filename = "forbidden.txt" then false else validatePR fs

end MainGo

namespace Part000

/-- `validatePR` of `src/unnamed/part_000` (lines 215–224): loops over the
files, returns `false` on a file named `forbidden.txt`, and returns
`true` after the loop. -/
def validatePR : List PRFile → Bool
  | [] => true
  | f :: fs => if f.filename = "forbidden.txt" then false else validatePR fs

end Part000

/-- The two program variants. -/
inductive Variant where
  | mainGo
  | part000
deriving DecidableEq, Repr

/-- Dispatch to the variant's `validatePR`. -/
def validatePR : Variant → List PRFile → Bool
  | .mainGo => MainGo.validatePR
  | .part000 => Part000.validatePR

/-- The action filter: `main.go` line 55 accepts only `"opened"`;
`part_000` line 55 accepts `"opened"` or `"reopened"`. -/
def acceptedAction : Variant → String → Bool
  | .mainGo, a => a == "opened"
  | .part000, a => a == "opened" || a == "reopened"

/-- PR-number resolution (both variants, lines 61–64): start from
`pull_request.number` and fall back to the top-level `number` when it
is `0`. -/
def resolvePRNumber (e : PullRequestEvent) : Int :=
  if e.pullRequestNumber == 0 then e.number else e.pullRequestNumber

/-- One outbound GitHub API interaction, at the granularity of the three
helper functions the handler invokes. -/
inductive Call where
  | fetchFiles (owner repo : String) (prNumber : Int)
  | updateStatus (owner repo : String) (prNumber : Int) (state description : String)
  | closePR (owner repo : String) (prNumber : Int)
deriving DecidableEq, Repr

/-- The PR number an outbound call addresses. -/
def Call.prNumberOf : Call → Int
  | .fetchFiles _ _ n => n
  | .updateStatus _ _ n _ _ => n
  | .closePR _ _ n => n

/-- Oracle for the results of the three outbound helpers
(`fetchPRFiles`, `updatePRStatus`, `closePullRequest`); an `Except`
error stands for the Go functions returning a non-nil `error`. -/
structure Api where
  fetchPRFiles : String → String → Int → Except String (List PRFile)
  updatePRStatus : String → String → Int → String → String → Except String Unit
  closePullRequest : String → String → Int → Except String Unit

/-- An inbound HTTP request, reduced to what the handler inspects: the
`Content-Type` header, the outcome of `r.ParseForm()` followed by
`r.FormValue("payload")` (`none` models a parse error), and the
outcome of `ioutil.ReadAll(r.Body)` (`none` models a read error). -/
structure Request where
  contentTypeHeader : String
  parseFormResult : Option String
  readBodyResult : Option String

/-- The HTTP response: status code and accumulated body text.  Go's
`http.Error` writes the message plus a newline and sets the code;
plain `fmt.Fprintf` writes leave the implicit 200. -/
structure Response where
  status : Nat
  body : String
deriving DecidableEq, Repr

/-- Payload extraction (both variants, lines 13–31): the form branch is
taken exactly when the `Content-Type` header equals
`application/x-www-form-urlencoded`; a form-parse failure is answered
with `http.Error(..., 400)` and a body-read failure with
`http.Error(..., 500)`. -/
def extractPayload (r : Request) : Except Response String :=
  if r.contentTypeHeader == "application/x-www-form-urlencoded" then
    match r.parseFormResult with
    | none => .error { status := 400, body := "Could not parse form\n" }
    | some payloadStr => .ok payloadStr
  else
    match r.readBodyResult with
    | none => .error { status := 500, body := "Could not read request body\n" }
    | some b => .ok b

/-- One `- name (additions: a, deletions: d, changes: c)` line of the
final per-file report (both variants). -/
def fileLine (f : PRFile) : String :=
  "- " ++ f.filename ++ " (additions: " ++ toString f.additions ++
    ", deletions: " ++ toString f.deletions ++
    ", changes: " ++ toString f.changes ++ ")\n"

/-- The trailing body block both variants write after validation. -/
def filesReport (files : List PRFile) : String :=
  "Files changed in PR:\n" ++ String.join (files.map fileLine)

/-- Body text a variant writes between the fetch and the final summary:
the `main.go` variant writes nothing there; the `part_000` variant
writes the text of its Enhanced-Reporting block (see
`prWebhookHandler`). -/
def variantReport (v : Variant) (enhancedReport : List PRFile → String)
    (files : List PRFile) : String :=
  match v with
  | .mainGo => ""
  | .part000 => enhancedReport files

/-- `prWebhookHandler`, common to both variants up to the accepted-action
set, the validator and the extra reporting block.  `unmarshal` models
`json.Unmarshal` into the event struct (`none` = decode error).
`enhancedReport` models the body text produced by the `part_000`-only
"Enhanced Reporting" block (lines 87–183 of `part_000`): that block
only formats the file list together with a local `apps.json` read from
disk and Go-map iterations whose order is unspecified, and performs no
outbound API call, so its text is taken as an oracle function of the
fetched files; the `main.go` variant has no such block and contributes
the empty string.  Returns the response and the ordered trace of
outbound calls. -/
def prWebhookHandler (v : Variant) (unmarshal : String → Option PullRequestEvent)
    (api : Api) (enhancedReport : List PRFile → String) (r : Request) :
    Response × List Call :=
  match extractPayload r with
  | .error resp => (resp, [])
  | .ok payload =>
    match unmarshal payload with
    | none => ({ status := 200, body := "Webhook received, but could not parse PR event" }, [])
    | some prEvent =>
      if acceptedAction v prEvent.action = false then
        ({ status := 200, body := "Ignoring PR event with action: " ++ prEvent.action }, [])
      else
        let prNumber := resolvePRNumber prEvent
        if prNumber == 0 then
          ({ status := 200, body := "No PR number found" }, [])
        else
          let owner := prEvent.ownerLogin
          let repo := prEvent.repositoryName
          match api.fetchPRFiles owner repo prNumber with
          | .error _ =>
            ({ status := 200, body := "Error fetching PR files" },
             [.fetchFiles owner repo prNumber])
          | .ok files =>
            let report := variantReport v enhancedReport files
            let validationPassed := validatePR v files
            let state := if validationPassed then "success" else "failure"
            let description :=
              if validationPassed then "PR validation passed." else "PR validation failed."
            -- the results of updatePRStatus / closePullRequest are only logged
            let _updResult := api.updatePRStatus owner repo prNumber state description
            let _closeResult :=
              if validationPassed then Except.ok () else api.closePullRequest owner repo prNumber
            let closeCalls : List Call :=
              if validationPassed then [] else [.closePR owner repo prNumber]
            ({ status := 200,
               body := report ++ "PR #" ++ toString prNumber ++
                 " validation complete. Status: " ++ state ++ "\n" ++ filesReport files },
             [.fetchFiles owner repo prNumber,
              .updateStatus owner repo prNumber state description] ++ closeCalls)

/-- A file named `ok.txt` with all other fields empty. -/
def okFile : PRFile :=
  { filename := "ok.txt", additions := 0, deletions := 0, changes := 0,
    status := "", rawUrl := "", blobUrl := "", patch := "" }

/-- A file named `forbidden.txt` with all other fields empty. -/
def forbiddenFile : PRFile :=
  { filename := "forbidden.txt", additions := 0, deletions := 0, changes := 0,
    status := "", rawUrl := "", blobUrl := "", patch := "" }

/-- An API oracle whose every operation succeeds, fetching the given
file list. -/
def okApi (files : List PRFile) : Api :=
  { fetchPRFiles := fun _ _ _ => .ok files,
    updatePRStatus := fun _ _ _ _ _ => .ok (),
    closePullRequest := fun _ _ _ => .ok () }

/-- A concrete accepted event for PR #42 on acme/repo. -/
def event42 : PullRequestEvent :=
  { action := "opened", number := 0, pullRequestNumber := 42,
    repositoryName := "repo", ownerLogin := "acme" }

/-- A raw-JSON request whose body reads successfully as `b`. -/
def jsonRequest (b : String) : Request :=
  { contentTypeHeader := "application/json", parseFormResult := none,
    readBodyResult := some b }

/-- A second file also named `ok.txt` but with every other field different
from `okFile`. -/
def okFileAlt : PRFile :=
  { filename := "ok.txt", additions := 7, deletions := 3, changes := 10,
    status := "modified", rawUrl := "u", blobUrl := "b", patch := "p" }

/-- The `main.go` validator returns `false` on every input: both the
forbidden-file branch and the post-loop return yield `false`. -/
theorem validatePR_main_false (files : List PRFile) :
    MainGo.validatePR files = false := by
  induction files with
  | nil => rfl
  | cons f fs ih =>
    by_cases h : f.filename = "forbidden.txt" <;> simp [MainGo.validatePR, h, ih]

/-- The `part_000` validator passes exactly when no file is named
`forbidden.txt`. -/
theorem validatePR_part000_true_iff (files : List PRFile) :
    Part000.validatePR files = true ↔ ∀ f ∈ files, f.filename ≠ "forbidden.txt" := by
  induction files with
  | nil => simp [Part000.validatePR]
  | cons f fs ih =>
    by_cases h : f.filename = "forbidden.txt" <;> simp [Part000.validatePR, h, ih]

/-- Claim C1 as stated predicts the pass outcome (`true`) for
`validatePR [okFile]` and `validatePR []`, but the `main.go` variant
returns `false` on both. -/
theorem validatePR_pass_default_counterexample :
    MainGo.validatePR [okFile] = false ∧ MainGo.validatePR [] = false ∧
      ¬ MainGo.validatePR [okFile] = true := by
  refine ⟨rfl, rfl, ?_⟩
  decide

/-- Claim C1 (amended): both variants return the fail outcome whenever some
file is named `forbidden.txt`; on a list with no such file the
`part_000` variant returns the pass outcome while the `main.go` variant
still returns the fail outcome (its `validatePR` is constantly
`false`). -/
theorem validatePR_default_polarity (files : List PRFile) :
    MainGo.validatePR files = false ∧
      (Part000.validatePR files = true ↔ ∀ f ∈ files, f.filename ≠ "forbidden.txt") :=
  ⟨validatePR_main_false files, validatePR_part000_true_iff files⟩

/-- Claim C5: the two variants agree (both fail) on every list containing a
file named `forbidden.txt`, and disagree on every list without one:
`main.go` defaults to fail while `part_000` defaults to pass. -/
theorem validatePR_variants_agreement (files : List PRFile) :
    ((∃ f ∈ files, f.filename = "forbidden.txt") →
        MainGo.validatePR files = false ∧ Part000.validatePR files = false) ∧
      ((∀ f ∈ files, f.filename ≠ "forbidden.txt") →
        MainGo.validatePR files = false ∧ Part000.validatePR files = true) := by
  refine ⟨fun h => ⟨validatePR_main_false files, ?_⟩,
    fun h => ⟨validatePR_main_false files, (validatePR_part000_true_iff files).mpr h⟩⟩
  rcases h with ⟨f, hf, hname⟩
  rcases Bool.eq_false_or_eq_true (Part000.validatePR files) with h1 | h0
  · exact absurd hname ((validatePR_part000_true_iff files).mp h1 f hf)
  · exact h0

/-- Witness for C5 at the concrete lists `[forbiddenFile]` and `[okFile]`. -/
theorem validatePR_variants_agreement_witness :
    ((∃ f ∈ [forbiddenFile], f.filename = "forbidden.txt") ∧
        MainGo.validatePR [forbiddenFile] = false ∧
          Part000.validatePR [forbiddenFile] = false) ∧
      ((∀ f ∈ [okFile], f.filename ≠ "forbidden.txt") ∧
        MainGo.validatePR [okFile] = false ∧ Part000.validatePR [okFile] = true) :=
  ⟨⟨by decide, (validatePR_variants_agreement [forbiddenFile]).1 (by decide)⟩,
    ⟨by decide, (validatePR_variants_agreement [okFile]).2 (by decide)⟩⟩

/-- Claim C10: each variant's `validatePR` reads only the `filename` field:
two lists with the same filename sequence (all other fields free to
differ) get the same outcome, and the function is deterministic. -/
theorem validatePR_filename_only (v : Variant) (xs ys : List PRFile)
    (h : xs.map PRFile.filename = ys.map PRFile.filename) :
    validatePR v xs = validatePR v ys := by
  induction xs generalizing ys with
  | nil =>
    cases ys with
    | nil => rfl
    | cons y ys => simp at h
  | cons x xs ih =>
    cases ys with
    | nil => simp at h
    | cons y ys =>
      simp only [List.map_cons, List.cons.injEq] at h
      have ht := ih ys h.2
      cases v with
      | mainGo =>
        simp only [validatePR] at ht ⊢
        simp [MainGo.validatePR, h.1, ht]
      | part000 =>
        simp only [validatePR] at ht ⊢
        simp [Part000.validatePR, h.1, ht]

/-- Witness for C10: `okFileAlt` differs from `okFile` in every non-filename
field, yet the `part_000` validator treats the two singleton lists the
same. -/
theorem validatePR_filename_only_witness :
    [okFileAlt].map PRFile.filename = [okFile].map PRFile.filename ∧
      validatePR .part000 [okFileAlt] = validatePR .part000 [okFile] :=
  ⟨rfl, validatePR_filename_only .part000 [okFileAlt] [okFile] rfl⟩

/-- On the accepted path with a successful fetch, the handler's whole output
is determined by the fetched file list. -/
theorem prWebhookHandler_fetch_ok (v : Variant)
    (unmarshal : String → Option PullRequestEvent) (api : Api)
    (er : List PRFile → String) (r : Request) (payload : String)
    (e : PullRequestEvent) (files : List PRFile)
    (hp : extractPayload r = .ok payload)
    (hu : unmarshal payload = some e)
    (ha : acceptedAction v e.action = true)
    (hn : ¬ resolvePRNumber e = 0)
    (hf : api.fetchPRFiles e.ownerLogin e.repositoryName (resolvePRNumber e) = .ok files) :
    prWebhookHandler v unmarshal api er r =
      ({ status := 200,
         body := variantReport v er files ++ "PR #" ++
           toString (resolvePRNumber e) ++ " validation complete. Status: " ++
           (if validatePR v files then "success" else "failure") ++ "\n" ++
           filesReport files },
       [Call.fetchFiles e.ownerLogin e.repositoryName (resolvePRNumber e),
        Call.updateStatus e.ownerLogin e.repositoryName (resolvePRNumber e)
          (if validatePR v files then "success" else "failure")
          (if validatePR v files then "PR validation passed." else "PR validation failed.")] ++
        (if validatePR v files then [] else
          [Call.closePR e.ownerLogin e.repositoryName (resolvePRNumber e)])) := by
  simp only [prWebhookHandler, hp, hu, ha, hf, beq_iff_eq, hn, Bool.true_eq_false, if_false,
    ite_false]

/-- On the accepted path with a failed fetch, the handler reports the fetch
error and stops after the single fetch call. -/
theorem prWebhookHandler_fetch_error (v : Variant)
    (unmarshal : String → Option PullRequestEvent) (api : Api)
    (er : List PRFile → String) (r : Request) (payload : String)
    (e : PullRequestEvent) (msg : String)
    (hp : extractPayload r = .ok payload)
    (hu : unmarshal payload = some e)
    (ha : acceptedAction v e.action = true)
    (hn : ¬ resolvePRNumber e = 0)
    (hf : api.fetchPRFiles e.ownerLogin e.repositoryName (resolvePRNumber e) = .error msg) :
    prWebhookHandler v unmarshal api er r =
      ({ status := 200, body := "Error fetching PR files" },
       [Call.fetchFiles e.ownerLogin e.repositoryName (resolvePRNumber e)]) := by
  simp only [prWebhookHandler, hp, hu, ha, hf, beq_iff_eq, hn, Bool.true_eq_false, if_false,
    ite_false]

/-- Any request whose payload extraction succeeds is answered with HTTP
status 200, whatever happens later in the handler. -/
theorem prWebhookHandler_status_extracted (v : Variant)
    (unmarshal : String → Option PullRequestEvent) (api : Api)
    (er : List PRFile → String) (r : Request) (payload : String)
    (hp : extractPayload r = .ok payload) :
    (prWebhookHandler v unmarshal api er r).1.status = 200 := by
  simp only [prWebhookHandler, hp]
  repeat first
  | rfl
  | split

/-- Claim C2 is false as stated: a form-encoded request whose form body
fails to parse is answered with `http.Error(..., 400)`, not 200 (and an
unreadable raw body similarly gets 500). -/
theorem handler_nonstandard_status_counterexample :
    (prWebhookHandler .mainGo (fun _ => none) (okApi []) (fun _ => "")
        { contentTypeHeader := "application/x-www-form-urlencoded",
          parseFormResult := none, readBodyResult := none }).1.status = 400 ∧
      ¬ (prWebhookHandler .mainGo (fun _ => none) (okApi []) (fun _ => "")
          { contentTypeHeader := "application/x-www-form-urlencoded",
            parseFormResult := none, readBodyResult := none }).1.status = 200 :=
  ⟨rfl, by decide⟩

/-- Claim C2 (amended): the handler answers 200 on every request except the
two payload-extraction failures, which reuse `http.Error`: a form-parse
failure on a form-encoded request yields 400 and a body-read failure on
any other request yields 500. -/
theorem handler_status_characterization (v : Variant)
    (unmarshal : String → Option PullRequestEvent) (api : Api)
    (er : List PRFile → String) (r : Request) :
    (prWebhookHandler v unmarshal api er r).1.status =
      (if r.contentTypeHeader == "application/x-www-form-urlencoded" then
        (if r.parseFormResult.isSome then 200 else 400)
      else (if r.readBodyResult.isSome then 200 else 500)) := by
  by_cases hct : (r.contentTypeHeader == "application/x-www-form-urlencoded") = true
  · cases hpf : r.parseFormResult with
    | none =>
      have hp : extractPayload r =
          .error { status := 400, body := "Could not parse form\n" } := by
        simp [extractPayload, hct, hpf]
      simp [prWebhookHandler, hp, hct, hpf]
    | some j =>
      have hp : extractPayload r = .ok j := by simp [extractPayload, hct, hpf]
      rw [prWebhookHandler_status_extracted v unmarshal api er r j hp]
      simp [hct, hpf]
  · cases hrb : r.readBodyResult with
    | none =>
      have hp : extractPayload r =
          .error { status := 500, body := "Could not read request body\n" } := by
        simp [extractPayload, hct, hrb]
      simp [prWebhookHandler, hp, hct, hrb]
    | some b =>
      have hp : extractPayload r = .ok b := by simp [extractPayload, hct, hrb]
      rw [prWebhookHandler_status_extracted v unmarshal api er r b hp]
      simp [hct, hrb]

/-- A decoder that yields `event42` on any payload. -/
def unmarshal42 : String → Option PullRequestEvent := fun _ => some event42

/-- An enhanced-reporting oracle that writes nothing. -/
def emptyReport : List PRFile → String := fun _ => ""

/-- An API oracle whose status update fails while fetch and close
succeed. -/
def failUpdateApi (files : List PRFile) : Api :=
  { fetchPRFiles := fun _ _ _ => .ok files,
    updatePRStatus := fun _ _ _ _ _ => .error "status update refused",
    closePullRequest := fun _ _ _ => .ok () }

/-- Claim C3: on an accepted event with a successful fetch and a failing
validation, the outbound trace is exactly one fetch, then exactly one
status update with state `failure` and description
`PR validation failed.`, then exactly one close for that PR. -/
theorem handler_validation_fail_calls (v : Variant)
    (unmarshal : String → Option PullRequestEvent) (api : Api)
    (er : List PRFile → String) (r : Request) (payload : String)
    (e : PullRequestEvent) (files : List PRFile)
    (hp : extractPayload r = .ok payload)
    (hu : unmarshal payload = some e)
    (ha : acceptedAction v e.action = true)
    (hn : ¬ resolvePRNumber e = 0)
    (hf : api.fetchPRFiles e.ownerLogin e.repositoryName (resolvePRNumber e) = .ok files)
    (hv : validatePR v files = false) :
    (prWebhookHandler v unmarshal api er r).2 =
      [Call.fetchFiles e.ownerLogin e.repositoryName (resolvePRNumber e),
       Call.updateStatus e.ownerLogin e.repositoryName (resolvePRNumber e)
         "failure" "PR validation failed.",
       Call.closePR e.ownerLogin e.repositoryName (resolvePRNumber e)] := by
  rw [prWebhookHandler_fetch_ok v unmarshal api er r payload e files hp hu ha hn hf]
  simp [hv]

/-- Witness for C3: the `main.go` variant on PR #42 with a fetched
`forbidden.txt` performs fetch, failure status update, close. -/
theorem handler_validation_fail_calls_witness :
    extractPayload (jsonRequest "{}") = .ok "{}" ∧
      unmarshal42 "{}" = some event42 ∧
      acceptedAction .mainGo event42.action = true ∧
      ¬ resolvePRNumber event42 = 0 ∧
      (okApi [forbiddenFile]).fetchPRFiles event42.ownerLogin event42.repositoryName
        (resolvePRNumber event42) = .ok [forbiddenFile] ∧
      validatePR .mainGo [forbiddenFile] = false ∧
      (prWebhookHandler .mainGo unmarshal42 (okApi [forbiddenFile]) emptyReport
          (jsonRequest "{}")).2 =
        [Call.fetchFiles "acme" "repo" 42,
         Call.updateStatus "acme" "repo" 42 "failure" "PR validation failed.",
         Call.closePR "acme" "repo" 42] :=
  ⟨rfl, rfl, rfl, by decide, rfl, by decide,
    handler_validation_fail_calls .mainGo unmarshal42 (okApi [forbiddenFile]) emptyReport
      (jsonRequest "{}") "{}" event42 [forbiddenFile] rfl rfl rfl (by decide) rfl (by decide)⟩

/-- Claim C4: on an accepted event with a successful fetch and a passing
validation, the outbound trace is exactly one fetch followed by exactly
one status update with state `success`; it contains no close call. -/
theorem handler_validation_pass_calls (v : Variant)
    (unmarshal : String → Option PullRequestEvent) (api : Api)
    (er : List PRFile → String) (r : Request) (payload : String)
    (e : PullRequestEvent) (files : List PRFile)
    (hp : extractPayload r = .ok payload)
    (hu : unmarshal payload = some e)
    (ha : acceptedAction v e.action = true)
    (hn : ¬ resolvePRNumber e = 0)
    (hf : api.fetchPRFiles e.ownerLogin e.repositoryName (resolvePRNumber e) = .ok files)
    (hv : validatePR v files = true) :
    (prWebhookHandler v unmarshal api er r).2 =
      [Call.fetchFiles e.ownerLogin e.repositoryName (resolvePRNumber e),
       Call.updateStatus e.ownerLogin e.repositoryName (resolvePRNumber e)
         "success" "PR validation passed."] := by
  rw [prWebhookHandler_fetch_ok v unmarshal api er r payload e files hp hu ha hn hf]
  simp [hv]

/-- Witness for C4: the `part_000` variant on PR #42 with a fetched
`ok.txt` performs fetch and success status update only. -/
theorem handler_validation_pass_calls_witness :
    extractPayload (jsonRequest "{}") = .ok "{}" ∧
      unmarshal42 "{}" = some event42 ∧
      acceptedAction .part000 event42.action = true ∧
      ¬ resolvePRNumber event42 = 0 ∧
      (okApi [okFile]).fetchPRFiles event42.ownerLogin event42.repositoryName
        (resolvePRNumber event42) = .ok [okFile] ∧
      validatePR .part000 [okFile] = true ∧
      (prWebhookHandler .part000 unmarshal42 (okApi [okFile]) emptyReport
          (jsonRequest "{}")).2 =
        [Call.fetchFiles "acme" "repo" 42,
         Call.updateStatus "acme" "repo" 42 "success" "PR validation passed."] :=
  ⟨rfl, rfl, by decide, by decide, rfl, by decide,
    handler_validation_pass_calls .part000 unmarshal42 (okApi [okFile]) emptyReport
      (jsonRequest "{}") "{}" event42 [okFile] rfl rfl (by decide) (by decide) rfl (by decide)⟩

/-- A concrete event with an action outside every accepted set. -/
def eventClosed : PullRequestEvent :=
  { action := "closed", number := 0, pullRequestNumber := 7,
    repositoryName := "repo", ownerLogin := "acme" }

/-- A decoder that yields `eventClosed` on any payload. -/
def unmarshalClosed : String → Option PullRequestEvent := fun _ => some eventClosed

/-- A concrete accepted event whose PR numbers are both zero. -/
def event0 : PullRequestEvent :=
  { action := "opened", number := 0, pullRequestNumber := 0,
    repositoryName := "repo", ownerLogin := "acme" }

/-- A decoder that yields `event0` on any payload. -/
def unmarshal0 : String → Option PullRequestEvent := fun _ => some event0

/-- Claim C6: a decoded event whose action is outside the variant's
accepted set is answered with a body that carries the action string,
and no outbound call is made. -/
theorem handler_ignored_action (v : Variant)
    (unmarshal : String → Option PullRequestEvent) (api : Api)
    (er : List PRFile → String) (r : Request) (payload : String)
    (e : PullRequestEvent)
    (hp : extractPayload r = .ok payload)
    (hu : unmarshal payload = some e)
    (ha : acceptedAction v e.action = false) :
    prWebhookHandler v unmarshal api er r =
        ({ status := 200, body := "Ignoring PR event with action: " ++ e.action }, []) ∧
      ∃ s, (prWebhookHandler v unmarshal api er r).1.body = s ++ e.action := by
  have h : prWebhookHandler v unmarshal api er r =
      ({ status := 200, body := "Ignoring PR event with action: " ++ e.action }, []) := by
    simp [prWebhookHandler, hp, hu, ha]
  exact ⟨h, "Ignoring PR event with action: ", by rw [h]⟩

/-- Witness for C6: action `closed` is ignored by the `main.go` variant
with an empty call trace. -/
theorem handler_ignored_action_witness :
    extractPayload (jsonRequest "{}") = .ok "{}" ∧
      unmarshalClosed "{}" = some eventClosed ∧
      acceptedAction .mainGo eventClosed.action = false ∧
      (prWebhookHandler .mainGo unmarshalClosed (okApi []) emptyReport (jsonRequest "{}") =
          ({ status := 200,
             body := "Ignoring PR event with action: " ++ eventClosed.action }, []) ∧
        ∃ s, (prWebhookHandler .mainGo unmarshalClosed (okApi []) emptyReport
            (jsonRequest "{}")).1.body = s ++ eventClosed.action) :=
  ⟨rfl, rfl, by decide,
    handler_ignored_action .mainGo unmarshalClosed (okApi []) emptyReport
      (jsonRequest "{}") "{}" eventClosed rfl rfl (by decide)⟩

/-- Claim C7: on an accepted event the PR number is resolved as
`pull_request.number` when nonzero, else the top-level `number`; when
both are zero the handler answers `No PR number found` and makes no
outbound call. -/
theorem handler_pr_number_resolution (v : Variant)
    (unmarshal : String → Option PullRequestEvent) (api : Api)
    (er : List PRFile → String) (r : Request) (payload : String)
    (e : PullRequestEvent)
    (hp : extractPayload r = .ok payload)
    (hu : unmarshal payload = some e)
    (ha : acceptedAction v e.action = true) :
    resolvePRNumber e =
        (if e.pullRequestNumber ≠ 0 then e.pullRequestNumber else e.number) ∧
      (e.pullRequestNumber = 0 ∧ e.number = 0 →
        prWebhookHandler v unmarshal api er r =
          ({ status := 200, body := "No PR number found" }, [])) := by
  constructor
  · by_cases h : e.pullRequestNumber = 0 <;> simp [resolvePRNumber, h]
  · rintro ⟨h1, h2⟩
    have hz : resolvePRNumber e = 0 := by simp [resolvePRNumber, h1, h2]
    simp [prWebhookHandler, hp, hu, ha, hz]

/-- Witness for C7 at `event0`, whose two PR-number fields are both zero. -/
theorem handler_pr_number_resolution_witness :
    extractPayload (jsonRequest "{}") = .ok "{}" ∧
      unmarshal0 "{}" = some event0 ∧
      acceptedAction .mainGo event0.action = true ∧
      resolvePRNumber event0 =
        (if event0.pullRequestNumber ≠ 0 then event0.pullRequestNumber else event0.number) ∧
      prWebhookHandler .mainGo unmarshal0 (okApi []) emptyReport (jsonRequest "{}") =
        ({ status := 200, body := "No PR number found" }, []) :=
  ⟨rfl, rfl, rfl,
    (handler_pr_number_resolution .mainGo unmarshal0 (okApi []) emptyReport
      (jsonRequest "{}") "{}" event0 rfl rfl rfl).1,
    (handler_pr_number_resolution .mainGo unmarshal0 (okApi []) emptyReport
      (jsonRequest "{}") "{}" event0 rfl rfl rfl).2 ⟨rfl, rfl⟩⟩

/-- Claim C8: a form-encoded request carrying a JSON document in its
`payload` field and a raw-JSON request whose whole body is that same
document are indistinguishable to the handler: every later step, and
so the full response and call trace, is identical. -/
theorem handler_form_json_equivalence (v : Variant)
    (unmarshal : String → Option PullRequestEvent) (api : Api)
    (er : List PRFile → String) (j : String) (pf rb : Option String) :
    prWebhookHandler v unmarshal api er
        { contentTypeHeader := "application/x-www-form-urlencoded",
          parseFormResult := some j, readBodyResult := rb } =
      prWebhookHandler v unmarshal api er
        { contentTypeHeader := "application/json", parseFormResult := pf,
          readBodyResult := some j } := by
  have h1 : extractPayload
      { contentTypeHeader := "application/x-www-form-urlencoded",
        parseFormResult := some j, readBodyResult := rb } = .ok j := rfl
  have h2 : extractPayload
      { contentTypeHeader := "application/json", parseFormResult := pf,
        readBodyResult := some j } = .ok j := rfl
  simp only [prWebhookHandler, h1, h2]

/-- Claim C9: when the status update fails on a failing validation, the
handler is not aborted: the close call is still issued and the final
`PR #N validation complete` body, with status 200, is still sent. -/
theorem handler_update_failure_nonfatal (v : Variant)
    (unmarshal : String → Option PullRequestEvent) (api : Api)
    (er : List PRFile → String) (r : Request) (payload : String)
    (e : PullRequestEvent) (files : List PRFile) (msg : String)
    (hp : extractPayload r = .ok payload)
    (hu : unmarshal payload = some e)
    (ha : acceptedAction v e.action = true)
    (hn : ¬ resolvePRNumber e = 0)
    (hf : api.fetchPRFiles e.ownerLogin e.repositoryName (resolvePRNumber e) = .ok files)
    (hv : validatePR v files = false)
    (hupd : api.updatePRStatus e.ownerLogin e.repositoryName (resolvePRNumber e)
        "failure" "PR validation failed." = .error msg) :
    (prWebhookHandler v unmarshal api er r).2 =
        [Call.fetchFiles e.ownerLogin e.repositoryName (resolvePRNumber e),
         Call.updateStatus e.ownerLogin e.repositoryName (resolvePRNumber e)
           "failure" "PR validation failed.",
         Call.closePR e.ownerLogin e.repositoryName (resolvePRNumber e)] ∧
      (prWebhookHandler v unmarshal api er r).1.status = 200 ∧
      ∃ s t, (prWebhookHandler v unmarshal api er r).1.body =
        s ++ ("PR #" ++ toString (resolvePRNumber e) ++ " validation complete") ++ t := by
  have h := prWebhookHandler_fetch_ok v unmarshal api er r payload e files hp hu ha hn hf
  rw [h]
  refine ⟨by simp [hv], rfl,
    variantReport v er files, ". Status: failure\n" ++ filesReport files, ?_⟩
  simp [hv, String.append_assoc]
  have hsplit : (" validation complete. Status: failure\n" : String) =
      " validation complete" ++ ". Status: failure\n" := rfl
  rw [hsplit,
    String.append_assoc " validation complete" ". Status: failure\n" (filesReport files)]

/-- Witness for C9: with an API whose status update errors out, the
`main.go` variant on PR #42 still closes the PR and still reports
completion. -/
theorem handler_update_failure_nonfatal_witness :
    extractPayload (jsonRequest "{}") = .ok "{}" ∧
      unmarshal42 "{}" = some event42 ∧
      acceptedAction .mainGo event42.action = true ∧
      ¬ resolvePRNumber event42 = 0 ∧
      (failUpdateApi [okFile]).fetchPRFiles event42.ownerLogin event42.repositoryName
        (resolvePRNumber event42) = .ok [okFile] ∧
      validatePR .mainGo [okFile] = false ∧
      (failUpdateApi [okFile]).updatePRStatus event42.ownerLogin event42.repositoryName
        (resolvePRNumber event42) "failure" "PR validation failed." =
        .error "status update refused" ∧
      ((prWebhookHandler .mainGo unmarshal42 (failUpdateApi [okFile]) emptyReport
            (jsonRequest "{}")).2 =
          [Call.fetchFiles "acme" "repo" 42,
           Call.updateStatus "acme" "repo" 42 "failure" "PR validation failed.",
           Call.closePR "acme" "repo" 42] ∧
        (prWebhookHandler .mainGo unmarshal42 (failUpdateApi [okFile]) emptyReport
            (jsonRequest "{}")).1.status = 200 ∧
        ∃ s t, (prWebhookHandler .mainGo unmarshal42 (failUpdateApi [okFile]) emptyReport
            (jsonRequest "{}")).1.body =
          s ++ ("PR #" ++ toString (resolvePRNumber event42) ++ " validation complete") ++ t) :=
  ⟨rfl, rfl, rfl, by decide, rfl, by decide, rfl,
    handler_update_failure_nonfatal .mainGo unmarshal42 (failUpdateApi [okFile]) emptyReport
      (jsonRequest "{}") "{}" event42 [okFile] "status update refused"
      rfl rfl rfl (by decide) rfl (by decide) rfl⟩
